import Mathlib

/-!
Verification of the inventory-react repository's specification.

The development embeds, as executable Lean definitions, the declarative
endpoint configuration of the product API (tag providers and invalidators,
the dynamic base-URL router), the legacy async reducer of the product
slice, and a state model of the query/mutation cache engine described in
the specification.  Theorems below settle the specification's claims
against these definitions.
-/

/-- Product entity, from productTypes.ts.  The price field is a JSON
number that participates in no computation in the verified fragment; it
is modelled as an integer-scaled amount so that states stay decidable. -/
structure Product where
  id : Int
  name : String
  description : String
  price : Int
  category : String
  stock : Int
  deriving DecidableEq, Repr

/-- Tag id: either a concrete numeric entity id or a string sentinel
such as "LIST", mirroring the ids used in the productApi endpoints. -/
inductive TagId
  | num (n : Int)
  | str (s : String)
  deriving DecidableEq, Repr

/-- Cache tag: a pair of a tag type and a tag id.  The repository uses
the single tag type "Product". -/
structure Tag where
  type : String
  id : TagId
  deriving DecidableEq, Repr

/-- Shorthand for a tag of type "Product" with the given id. -/
def productTag (i : TagId) : Tag := ⟨"Product", i⟩

/-- Tags provided by the getProducts query (productApi, getProducts):
one tag per returned item plus the "LIST" sentinel; only the sentinel
when the request produced no result. -/
def getProductsProvidesTags : Option (List Product) → List Tag
  | some result =>
      result.map (fun p => productTag (TagId.num p.id)) ++ [productTag (TagId.str "LIST")]
  | none => [productTag (TagId.str "LIST")]

/-- Tags provided by the searchProducts query (productApi,
searchProducts): one tag per returned item plus the "SEARCH" sentinel;
only the sentinel when the request produced no result. -/
def searchProductsProvidesTags : Option (List Product) → List Tag
  | some result =>
      result.map (fun p => productTag (TagId.num p.id)) ++ [productTag (TagId.str "SEARCH")]
  | none => [productTag (TagId.str "SEARCH")]

/-- Tags provided by the getProductById query (productApi,
getProductById): the single tag for the requested id. -/
def getProductByIdProvidesTags (id : Int) : List Tag :=
  [productTag (TagId.num id)]

/-- Tags provided by the findUncategorized query (productApi,
findUncategorized): one tag per returned id plus the "UNCATEGORIZED"
sentinel; only the sentinel when the request produced no result. -/
def findUncategorizedProvidesTags : Option (List Int) → List Tag
  | some result =>
      result.map (fun id => productTag (TagId.num id)) ++ [productTag (TagId.str "UNCATEGORIZED")]
  | none => [productTag (TagId.str "UNCATEGORIZED")]

/-- Tags invalidated by the addProduct mutation (productApi,
addProduct): only the "LIST" sentinel. -/
def addProductInvalidatesTags : List Tag :=
  [productTag (TagId.str "LIST")]

/-- Tags invalidated by the deleteProduct mutation (productApi,
deleteProduct): the tag of the deleted id plus the "LIST" sentinel. -/
def deleteProductInvalidatesTags (id : Int) : List Tag :=
  [productTag (TagId.num id), productTag (TagId.str "LIST")]

/-- Tags invalidated by the updateProduct mutation (productApi,
updateProduct): the tag of the updated product's id plus the "LIST"
sentinel. -/
def updateProductInvalidatesTags (product : Product) : List Tag :=
  [productTag (TagId.num product.id), productTag (TagId.str "LIST")]

/-- Tags invalidated by the classifyProducts mutation (productApi,
classifyProducts): the endpoint declares no invalidatesTags, so it
invalidates nothing for any result, error or argument. -/
def classifyProductsInvalidatesTags {α β : Type} (_result : Option α)
    (_error : Option β) (_ids : List Int) : List Tag := []

/-- Boolean test that a string starts with a given pattern, modelling
the startsWith call of the dynamic base query on character lists so
that it evaluates inside the kernel. -/
def strStartsWith (s pat : String) : Bool := pat.data.isPrefixOf s.data

/-- Drop the first n characters of a string, used to model stripping a
matched leading pattern. -/
def strDrop (s : String) (n : Nat) : String := String.mk (s.data.drop n)

/-- Hard-coded fallback for the primary backend base URL (productApi,
backendUrl). -/
def backendFallbackUrl : String := "http://test-1863767629.us-east-1.elb.amazonaws.com"

/-- Hard-coded fallback for the classification backend base URL
(productApi, classifyUrl). -/
def classifyFallbackUrl : String := "http://18.215.162.98:5000"

/-- Replacement of the anchored pattern at the start of the url,
modelling request.url.replace of the dynamic base query: when the url
starts with "/classify" the leading nine characters are removed,
otherwise the url is unchanged. -/
def replaceClassifyRoute (url : String) : String :=
  if strStartsWith url "/classify" then strDrop url ("/classify".length) else url

/-- Routing decision of dynamicBaseQuery (productApi): the chosen base
URL and the adjusted request url.  The two base URLs come from the
environment, falling back to hard-coded values when unset. -/
def dynamicBaseQueryRoute (backendEnv classifyEnv : Option String) (url : String) :
    String × String :=
  let backendUrl := backendEnv.getD backendFallbackUrl
  let classifyUrl := classifyEnv.getD classifyFallbackUrl
  let isClassification := strStartsWith url "/classify"
  let baseUrl := if isClassification then classifyUrl else backendUrl
  let adjustedUrl := if isClassification then replaceClassifyRoute url else url
  (baseUrl, adjustedUrl)

/-- State bag of the legacy product slice (productSlice): the product
list, the loading flag and the error message. -/
structure ProductState where
  products : List Product
  loading : Bool
  error : Option String
  deriving DecidableEq, Repr

/-- Initial state of the legacy product slice. -/
def initialProductState : ProductState := ⟨[], false, none⟩

/-- JavaScript truthiness fallback on strings: the or-else of
productSlice treats an absent payload and the empty string alike as
carrying no message. -/
def jsOrString : Option String → String → String
  | some s, d => if s = "" then d else s
  | none, d => d

/-- Lifecycle actions dispatched for the fetchProducts thunk: pending,
fulfilled with the fetched list, rejected with an optional message. -/
inductive FetchProductsAction
  | pending
  | fulfilled (payload : List Product)
  | rejected (payload : Option String)
  deriving DecidableEq, Repr

/-- Reducer of the legacy product slice (productSlice extraReducers):
pending sets loading and clears the error, fulfilled stores the payload
and clears loading, rejected clears loading and stores the message with
the fixed default "Unknown error" as fallback. -/
def productReducer (state : ProductState) : FetchProductsAction → ProductState
  | FetchProductsAction.pending =>
      { state with loading := true, error := none }
  | FetchProductsAction.fulfilled payload =>
      { state with loading := false, products := payload }
  | FetchProductsAction.rejected payload =>
      { state with loading := false, error := some (jsOrString payload "Unknown error") }

/-- Fold a sequence of lifecycle actions through the legacy reducer in
dispatch order. -/
def runFetchActions (s : ProductState) (acts : List FetchProductsAction) : ProductState :=
  acts.foldl productReducer s

/-- Sample product used to instantiate witnesses. -/
def sampleProduct : Product := ⟨1, "Pen", "Blue ink", 150, "Office", 100⟩

/-- Second sample product used to instantiate witnesses. -/
def sampleProductTwo : Product := ⟨2, "Notebook", "A5 ruled", 300, "Office", 50⟩

/-- C1: the tag computation of the product API follows the list+item
duality policy: getProducts provides exactly one tag per returned item
plus the "LIST" sentinel, and only the sentinel when there is no
result; getProductById provides the single tag of the requested id;
addProduct invalidates exactly the sentinel; deleteProduct and
updateProduct invalidate exactly the specific id tag and the
sentinel. -/
theorem tag_policy_list_item_duality (result : List Product) (pid : Int) (p : Product) :
    ((getProductsProvidesTags (some result)).length = result.length + 1
      ∧ (∀ t : Tag, t ∈ getProductsProvidesTags (some result) ↔
            (t = productTag (TagId.str "LIST")
              ∨ ∃ q ∈ result, t = productTag (TagId.num q.id))))
    ∧ getProductsProvidesTags none = [productTag (TagId.str "LIST")]
    ∧ getProductByIdProvidesTags pid = [productTag (TagId.num pid)]
    ∧ addProductInvalidatesTags = [productTag (TagId.str "LIST")]
    ∧ deleteProductInvalidatesTags pid
        = [productTag (TagId.num pid), productTag (TagId.str "LIST")]
    ∧ updateProductInvalidatesTags p
        = [productTag (TagId.num p.id), productTag (TagId.str "LIST")] := by
  refine ⟨⟨?_, ?_⟩, rfl, rfl, rfl, rfl, rfl⟩
  · simp [getProductsProvidesTags]
  · intro t
    simp only [getProductsProvidesTags, List.mem_append, List.mem_map,
      List.mem_singleton]
    aesop

/-- Witness instantiating the tag-policy theorem at concrete inputs. -/
theorem tag_policy_list_item_duality_witness :
    getProductByIdProvidesTags 2 = [productTag (TagId.num 2)]
    ∧ deleteProductInvalidatesTags 5
        = [productTag (TagId.num 5), productTag (TagId.str "LIST")] :=
  ⟨(tag_policy_list_item_duality [] 2 sampleProduct).2.2.1,
   (tag_policy_list_item_duality [] 5 sampleProduct).2.2.2.2.1⟩

/-- C8: dynamicBaseQuery routes every request whose path starts with
"/classify" to the classification base URL with the leading prefix of
nine characters stripped, and every other path unmodified to the
primary backend base URL; both base URLs are read from the environment
with hard-coded fallbacks. -/
theorem dynamic_base_query_routing (be ce : Option String) (url : String) :
    (strStartsWith url "/classify" = true →
      dynamicBaseQueryRoute be ce url
        = (ce.getD classifyFallbackUrl, strDrop url ("/classify".length)))
    ∧ (strStartsWith url "/classify" = false →
      dynamicBaseQueryRoute be ce url = (be.getD backendFallbackUrl, url)) := by
  constructor <;> intro h <;>
    simp [dynamicBaseQueryRoute, replaceClassifyRoute, h]

/-- Witness: routing of a classification path and of a plain path at
concrete inputs, with both environment variables unset. -/
theorem dynamic_base_query_routing_witness :
    dynamicBaseQueryRoute none none "/classify/products"
      = ("http://18.215.162.98:5000", "/products")
    ∧ dynamicBaseQueryRoute none none "/products"
      = ("http://test-1863767629.us-east-1.elb.amazonaws.com", "/products") := by
  constructor
  · have h := (dynamic_base_query_routing none none "/classify/products").1 (by decide)
    simpa [classifyFallbackUrl] using h
  · have h := (dynamic_base_query_routing none none "/products").2 (by decide)
    simpa [backendFallbackUrl] using h

/-- C6: the legacy async reducer implements the per-invocation
three-state machine: pending sets loading and clears any prior error;
fulfilled clears loading and replaces the items with the result;
rejected clears loading and stores the failure message, falling back to
the fixed default "Unknown error" when the failure carries no message
(an absent payload, or the empty string, which the source's or-else
treats as absent). -/
theorem legacy_reducer_lifecycle (s : ProductState) (payload : List Product)
    (msg : String) (hmsg : msg ≠ "") :
    productReducer s FetchProductsAction.pending
      = { s with loading := true, error := none }
    ∧ productReducer s (FetchProductsAction.fulfilled payload)
      = { s with loading := false, products := payload }
    ∧ productReducer s (FetchProductsAction.rejected (some msg))
      = { s with loading := false, error := some msg }
    ∧ productReducer s (FetchProductsAction.rejected none)
      = { s with loading := false, error := some "Unknown error" }
    ∧ productReducer s (FetchProductsAction.rejected (some ""))
      = { s with loading := false, error := some "Unknown error" } := by
  refine ⟨rfl, rfl, ?_, rfl, by simp [productReducer, jsOrString]⟩
  simp [productReducer, jsOrString, hmsg]

/-- Witness for the legacy reducer lifecycle at concrete inputs. -/
theorem legacy_reducer_lifecycle_witness :
    productReducer initialProductState
        (FetchProductsAction.rejected (some "Failed to fetch products"))
      = { initialProductState with
          loading := false, error := some "Failed to fetch products" }
    ∧ productReducer initialProductState FetchProductsAction.pending
      = { initialProductState with loading := true, error := none } :=
  ⟨(legacy_reducer_lifecycle initialProductState [] "Failed to fetch products"
      (by decide)).2.2.1,
   (legacy_reducer_lifecycle initialProductState [] "Failed to fetch products"
      (by decide)).1⟩

/-- C7 counterexample: with invocation B rejecting before invocation A
fulfills, the final state keeps B's error message even though A settled
last, so the last-settling invocation does not determine the whole
final state. -/
theorem legacy_pipeline_last_settle_counterexample :
    runFetchActions initialProductState
        [FetchProductsAction.pending, FetchProductsAction.pending,
         FetchProductsAction.rejected (some "request failed"),
         FetchProductsAction.fulfilled [sampleProduct]]
      = { products := [sampleProduct], loading := false,
          error := some "request failed" }
    ∧ runFetchActions initialProductState
        [FetchProductsAction.pending,
         FetchProductsAction.fulfilled [sampleProduct]]
      = { products := [sampleProduct], loading := false, error := none }
    ∧ runFetchActions initialProductState
        [FetchProductsAction.pending, FetchProductsAction.pending,
         FetchProductsAction.rejected (some "request failed"),
         FetchProductsAction.fulfilled [sampleProduct]]
      ≠ runFetchActions initialProductState
        [FetchProductsAction.pending,
         FetchProductsAction.fulfilled [sampleProduct]] := by
  refine ⟨by decide, by decide, by decide⟩

/-- C7 amended: the legacy pipeline has no concurrent-invocation guard
and applies settlements in settlement order, regardless of issue order:
when both overlapping invocations settle with the same kind of outcome
the last to settle fully determines the final state; with mixed
outcomes the last settlement overwrites only the field it writes (items
on success, error on failure) and the other settlement's field
survives. -/
theorem legacy_pipeline_last_settle (s : ProductState) (psA psB : List Product)
    (eA eB : Option String) :
    runFetchActions s
        [FetchProductsAction.pending, FetchProductsAction.pending,
         FetchProductsAction.fulfilled psB, FetchProductsAction.fulfilled psA]
      = runFetchActions s
          [FetchProductsAction.pending, FetchProductsAction.fulfilled psA]
    ∧ runFetchActions s
        [FetchProductsAction.pending, FetchProductsAction.pending,
         FetchProductsAction.rejected eB, FetchProductsAction.rejected eA]
      = runFetchActions s
          [FetchProductsAction.pending, FetchProductsAction.rejected eA]
    ∧ runFetchActions s
        [FetchProductsAction.pending, FetchProductsAction.pending,
         FetchProductsAction.rejected eB, FetchProductsAction.fulfilled psA]
      = { s with
          products := psA, loading := false,
          error := some (jsOrString eB "Unknown error") }
    ∧ runFetchActions s
        [FetchProductsAction.pending, FetchProductsAction.pending,
         FetchProductsAction.fulfilled psB, FetchProductsAction.rejected eA]
      = { s with
          products := psB, loading := false,
          error := some (jsOrString eA "Unknown error") } :=
  ⟨rfl, rfl, rfl, rfl⟩

/-- Modelled from the spec: lifecycle status of a cache entry of the
query/mutation cache engine, which is library code not present in the
repository sources. -/
inductive QueryStatus
  | uninitialized
  | pending
  | fulfilled
  | rejected
  deriving DecidableEq, Repr

/-- Modelled from the spec: a normalized error shape with an optional
HTTP status and a message, as produced by the engine's failure
normalization. -/
structure NormalizedError where
  status : Option Int
  message : String
  deriving DecidableEq, Repr

/-- Payloads the product endpoints can cache: a product list, a single
product, a list of ids needing classification, or a delete
acknowledgement. -/
inductive Payload
  | products (ps : List Product)
  | product (p : Product)
  | ids (ns : List Int)
  | deleteAck (success : Bool) (id : Int)
  deriving DecidableEq, Repr

/-- Modelled from the spec: one cache entry per cache key, holding the
request status, the last successful payload, the last error, the set of
provided tags, the number of active subscribers, the number of network
requests currently in flight for the key, and the staleness mark set by
tag invalidation.  The engine itself is library code not present in the
repository sources. -/
structure CacheEntry where
  status : QueryStatus
  data : Option Payload
  error : Option NormalizedError
  providedTags : List Tag
  subscribers : Nat
  inflight : Nat
  stale : Bool
  deriving DecidableEq, Repr

/-- Cache key: the pair of endpoint name and serialized argument. -/
abbrev CacheKey := String × String

/-- Modelled from the spec: the cache store, a map from cache keys to
entries together with a per-key count of network requests issued so
far.  The store is the engine's process-wide state. -/
structure CacheState where
  entry : CacheKey → Option CacheEntry
  issuedCount : CacheKey → Nat

/-- Empty cache store: no entries, no requests issued. -/
def emptyCacheState : CacheState := ⟨fun _ => none, fun _ => 0⟩

/-- Boolean intersection test on tag lists. -/
def tagsIntersect (a b : List Tag) : Bool :=
  a.any fun x => b.any fun y => decide (x = y)

/-- Modelled from the spec: effect of an invalidated tag set on one
cache entry.  An entry whose provided tags intersect the set is marked
stale, and if it has at least one active subscriber and no request
already in flight a background refetch starts; an entry whose provided
tags are disjoint from the set is left unchanged. -/
def invalidateEntry (T : List Tag) (e : CacheEntry) : CacheEntry :=
  if tagsIntersect e.providedTags T then
    { e with
      stale := true,
      inflight := if 0 < e.subscribers ∧ e.inflight = 0 then 1 else e.inflight }
  else e

/-- Modelled from the spec: whether invalidating the tag set T makes
the entry start a background refetch. -/
def entryNeedsRefetch (T : List Tag) (e : CacheEntry) : Bool :=
  tagsIntersect e.providedTags T && decide (0 < e.subscribers) && decide (e.inflight = 0)

/-- Modelled from the spec: invalidation of a tag set across the whole
cache store.  Every entry is rewritten pointwise by invalidateEntry and
a network request is logged for every entry that starts a background
refetch. -/
def invalidate (T : List Tag) (s : CacheState) : CacheState :=
  { entry := fun k => (s.entry k).map (invalidateEntry T),
    issuedCount := fun k =>
      s.issuedCount k +
        (match s.entry k with
          | some e => if entryNeedsRefetch T e then 1 else 0
          | none => 0) }

/-- Modelled from the spec: result handed back to a mutation caller,
with the success flag, the payload on success and the normalized error
on failure. -/
structure MutationResult where
  isSuccess : Bool
  data : Option Payload
  error : Option NormalizedError
  deriving DecidableEq, Repr

/-- Modelled from the spec: completion of a mutation.  A successful
mutation invalidates the tag set computed by its invalidatesTags
callback; a failed mutation invalidates nothing and records the failure
only in its own result. -/
def completeMutation (invTags : Option Payload → Option NormalizedError → List Tag)
    (outcome : Except NormalizedError Payload) (s : CacheState) :
    CacheState × MutationResult :=
  match outcome with
  | Except.ok r => (invalidate (invTags (some r) none) s, ⟨true, some r, none⟩)
  | Except.error e => (s, ⟨false, none, some e⟩)

/-- Fresh entry created on first subscription to a cache key: pending,
no data, no error, one subscriber, one request in flight. -/
def freshPendingEntry : CacheEntry :=
  ⟨QueryStatus.pending, none, none, [], 1, 1, false⟩

/-- Store an entry under a key. -/
def setEntry (s : CacheState) (k : CacheKey) (e : CacheEntry) : CacheState :=
  { s with entry := fun q => if q = k then some e else s.entry q }

/-- Log one more network request issued for a key. -/
def logIssue (s : CacheState) (k : CacheKey) : CacheState :=
  { s with
    issuedCount := fun q => if q = k then s.issuedCount q + 1 else s.issuedCount q }

/-- Modelled from the spec: subscription to a cache key.  With no entry
present a fresh pending entry is created and one request is issued;
with an entry present the subscriber count grows, a request is issued
only when the entry is stale with nothing in flight, and a pending
entry's in-flight request is shared rather than duplicated. -/
def subscribeStep (k : CacheKey) (s : CacheState) : CacheState :=
  match s.entry k with
  | none => logIssue (setEntry s k freshPendingEntry) k
  | some e =>
      if e.stale ∧ e.inflight = 0 then
        logIssue (setEntry s k { e with subscribers := e.subscribers + 1, inflight := 1 }) k
      else
        setEntry s k { e with subscribers := e.subscribers + 1 }

/-- Modelled from the spec: one render of a useQuery hook.  With skip
set the store is left exactly as it is and no request is issued; with
skip unset the hook subscribes under the key holding the then-current
argument. -/
def useQueryStep (k : CacheKey) (skip : Bool) (s : CacheState) : CacheState :=
  if skip then s else subscribeStep k s

/-- Modelled from the spec: removal of one subscriber from a key. -/
def unsubscribeStep (k : CacheKey) (s : CacheState) : CacheState :=
  match s.entry k with
  | none => s
  | some e => setEntry s k { e with subscribers := e.subscribers - 1 }

/-- Modelled from the spec: successful resolution of the in-flight
request of a key: the entry becomes fulfilled with the new payload and
the tags provided by the endpoint, the error clears, nothing stays in
flight and the staleness mark clears. -/
def resolveOkStep (k : CacheKey) (p : Payload) (tags : List Tag) (s : CacheState) :
    CacheState :=
  match s.entry k with
  | none => s
  | some e =>
      setEntry s k
        { e with
          status := QueryStatus.fulfilled, data := some p, error := none,
          providedTags := tags, inflight := 0, stale := false }

/-- Modelled from the spec: failed resolution of the in-flight request
of a key: the entry becomes rejected and records the normalized error,
previously cached successful data is kept, nothing stays in flight. -/
def resolveErrStep (k : CacheKey) (err : NormalizedError) (s : CacheState) : CacheState :=
  match s.entry k with
  | none => s
  | some e =>
      setEntry s k
        { e with status := QueryStatus.rejected, error := some err, inflight := 0 }

/-- Events driving the cache engine model. -/
inductive EngineEvent
  | subscribe (k : CacheKey)
  | render (k : CacheKey) (skip : Bool)
  | unsubscribe (k : CacheKey)
  | resolveOk (k : CacheKey) (p : Payload) (tags : List Tag)
  | resolveErr (k : CacheKey) (err : NormalizedError)
  | mutationSettled (inv : List Tag)

/-- Modelled from the spec: small-step transition of the cache engine
on one event. -/
def engineStep (s : CacheState) : EngineEvent → CacheState
  | EngineEvent.subscribe k => subscribeStep k s
  | EngineEvent.render k skip => useQueryStep k skip s
  | EngineEvent.unsubscribe k => unsubscribeStep k s
  | EngineEvent.resolveOk k p tags => resolveOkStep k p tags s
  | EngineEvent.resolveErr k err => resolveErrStep k err s
  | EngineEvent.mutationSettled inv => invalidate inv s

/-- Run of the cache engine from the empty store over an event list. -/
def runEngine (evs : List EngineEvent) : CacheState :=
  evs.foldl engineStep emptyCacheState

/-- Number of requests in flight for a key. -/
def inflightOf (s : CacheState) (k : CacheKey) : Nat :=
  match s.entry k with
  | none => 0
  | some e => e.inflight

/-- Number of active subscribers of a key. -/
def subscribersOf (s : CacheState) (k : CacheKey) : Nat :=
  match s.entry k with
  | none => 0
  | some e => e.subscribers

/-- Data every subscriber of a key observes: the payload stored in the
single entry of that key. -/
def observedData (s : CacheState) (k : CacheKey) : Option Payload :=
  match s.entry k with
  | none => none
  | some e => e.data

/-- Invariant: every key has at most one network request in flight. -/
def InflightBounded (s : CacheState) : Prop :=
  ∀ k : CacheKey, inflightOf s k ≤ 1

lemma tagsIntersect_nil (a : List Tag) : tagsIntersect a [] = false := by
  simp [tagsIntersect]

lemma invalidateEntry_nil (e : CacheEntry) : invalidateEntry [] e = e := by
  simp [invalidateEntry, tagsIntersect_nil]

lemma entryNeedsRefetch_nil (e : CacheEntry) : entryNeedsRefetch [] e = false := by
  simp [entryNeedsRefetch, tagsIntersect_nil]

lemma invalidate_nil (s : CacheState) : invalidate [] s = s := by
  cases s with
  | mk ent cnt =>
      simp only [invalidate, CacheState.mk.injEq]
      constructor
      · funext k
        cases h : ent k <;> simp [h, invalidateEntry_nil]
      · funext k
        cases h : ent k <;> simp [h, entryNeedsRefetch_nil]

lemma inflightOf_entry_eq {s : CacheState} {k : CacheKey} {e : CacheEntry}
    (hek : s.entry k = some e) : inflightOf s k = e.inflight := by
  simp [inflightOf, hek]

lemma subscribeStep_inflightBounded (k : CacheKey) (s : CacheState)
    (h : InflightBounded s) : InflightBounded (subscribeStep k s) := by
  intro k'
  unfold subscribeStep
  cases hek : s.entry k with
  | none =>
      by_cases hk : k' = k <;>
        simp [logIssue, setEntry, inflightOf, hk, freshPendingEntry]
      have := h k'
      simpa [inflightOf] using this
  | some e =>
      have he : e.inflight ≤ 1 := by
        have := h k
        simpa [inflightOf_entry_eq hek] using this
      by_cases hc : e.stale ∧ e.inflight = 0 <;>
        by_cases hk : k' = k <;>
          simp [logIssue, setEntry, inflightOf, hk, hc]
      · have := h k'
        simpa [inflightOf] using this
      · exact he
      · have := h k'
        simpa [inflightOf] using this

lemma unsubscribeStep_inflightBounded (k : CacheKey) (s : CacheState)
    (h : InflightBounded s) : InflightBounded (unsubscribeStep k s) := by
  intro k'
  unfold unsubscribeStep
  cases hek : s.entry k with
  | none => exact h k'
  | some e =>
      have he : e.inflight ≤ 1 := by
        have := h k
        simpa [inflightOf_entry_eq hek] using this
      by_cases hk : k' = k <;> simp [setEntry, inflightOf, hk]
      · exact he
      · have := h k'
        simpa [inflightOf] using this

lemma resolveOkStep_inflightBounded (k : CacheKey) (p : Payload) (tags : List Tag)
    (s : CacheState) (h : InflightBounded s) :
    InflightBounded (resolveOkStep k p tags s) := by
  intro k'
  unfold resolveOkStep
  cases hek : s.entry k with
  | none => exact h k'
  | some e =>
      by_cases hk : k' = k <;> simp [setEntry, inflightOf, hk]
      have := h k'
      simpa [inflightOf] using this

lemma resolveErrStep_inflightBounded (k : CacheKey) (err : NormalizedError)
    (s : CacheState) (h : InflightBounded s) :
    InflightBounded (resolveErrStep k err s) := by
  intro k'
  unfold resolveErrStep
  cases hek : s.entry k with
  | none => exact h k'
  | some e =>
      by_cases hk : k' = k <;> simp [setEntry, inflightOf, hk]
      have := h k'
      simpa [inflightOf] using this

lemma invalidate_inflightBounded (inv : List Tag) (s : CacheState)
    (h : InflightBounded s) : InflightBounded (invalidate inv s) := by
  intro k'
  have he := h k'
  simp only [invalidate, inflightOf] at *
  cases hek : s.entry k' with
  | none => simp
  | some e =>
      rw [hek] at he
      simp only [hek, Option.map_some']
      simp only [invalidateEntry]
      split_ifs <;> simp_all

lemma engineStep_inflightBounded (s : CacheState) (ev : EngineEvent)
    (h : InflightBounded s) : InflightBounded (engineStep s ev) := by
  cases ev with
  | subscribe k => exact subscribeStep_inflightBounded k s h
  | render k skip =>
      cases skip with
      | false => exact subscribeStep_inflightBounded k s h
      | true => exact h
  | unsubscribe k => exact unsubscribeStep_inflightBounded k s h
  | resolveOk k p tags => exact resolveOkStep_inflightBounded k p tags s h
  | resolveErr k err => exact resolveErrStep_inflightBounded k err s h
  | mutationSettled inv => exact invalidate_inflightBounded inv s h

lemma foldl_inflightBounded (evs : List EngineEvent) :
    ∀ s : CacheState, InflightBounded s → InflightBounded (evs.foldl engineStep s) := by
  induction evs with
  | nil => intro s h; simpa using h
  | cons ev rest ih =>
      intro s h
      simpa [List.foldl] using ih (engineStep s ev) (engineStep_inflightBounded s ev h)

lemma emptyCacheState_inflightBounded : InflightBounded emptyCacheState := by
  intro k
  simp [inflightOf, emptyCacheState]

lemma tagsIntersect_eq_false_iff (a b : List Tag) :
    tagsIntersect a b = false ↔ ∀ x ∈ a, ∀ y ∈ b, x ≠ y := by
  constructor
  · intro h x hx y hy hxy
    have htrue : tagsIntersect a b = true := by
      simp only [tagsIntersect, List.any_eq_true, decide_eq_true_eq]
      exact ⟨x, hx, y, hy, hxy⟩
    rw [h] at htrue
    exact Bool.false_ne_true htrue
  · intro h
    by_contra hne
    have htrue : tagsIntersect a b = true := by
      cases hcase : tagsIntersect a b
      · exact absurd hcase hne
      · rfl
    simp only [tagsIntersect, List.any_eq_true, decide_eq_true_eq] at htrue
    obtain ⟨x, hx, y, hy, hxy⟩ := htrue
    exact h x hx y hy hxy

/-- C2: invalidation propagation invariant: invalidation rewrites every
cache entry pointwise; an entry whose provided tags intersect the
invalidated set is marked stale with its data, error and provided tags
preserved and, when it has at least one active subscriber, a refetch in
flight; an entry whose provided tags are disjoint from the set is left
completely unchanged. -/
theorem invalidation_propagation (T : List Tag) (e : CacheEntry) :
    (∀ (s : CacheState) (k : CacheKey),
        (invalidate T s).entry k = (s.entry k).map (invalidateEntry T))
    ∧ (tagsIntersect e.providedTags T = true →
        (invalidateEntry T e).stale = true
        ∧ (invalidateEntry T e).data = e.data
        ∧ (invalidateEntry T e).error = e.error
        ∧ (invalidateEntry T e).providedTags = e.providedTags
        ∧ (0 < e.subscribers → 0 < (invalidateEntry T e).inflight))
    ∧ (tagsIntersect e.providedTags T = false → invalidateEntry T e = e) := by
  refine ⟨fun s k => rfl, ?_, ?_⟩
  · intro h
    refine ⟨by simp [invalidateEntry, h], by simp [invalidateEntry, h],
      by simp [invalidateEntry, h], by simp [invalidateEntry, h], ?_⟩
    intro hs
    simp only [invalidateEntry, h, if_true]
    split_ifs with hc
    · exact Nat.zero_lt_one
    · omega
  · intro h
    simp [invalidateEntry, h]

/-- Cache entry of a fulfilled getProducts list query over the two
sample products, with one active subscriber and nothing in flight. -/
def listEntrySample : CacheEntry :=
  ⟨QueryStatus.fulfilled, some (Payload.products [sampleProduct, sampleProductTwo]),
   none, getProductsProvidesTags (some [sampleProduct, sampleProductTwo]), 1, 0, false⟩

/-- Cache entry of a fulfilled getProductById query for id 2, with one
active subscriber and nothing in flight. -/
def idTwoEntrySample : CacheEntry :=
  ⟨QueryStatus.fulfilled, some (Payload.product sampleProductTwo), none,
   getProductByIdProvidesTags 2, 1, 0, false⟩

/-- Witness: the update mutation on the sample product with id 1 stales
and refetches the subscribed list entry while leaving the entry of
getProductById 2 untouched. -/
theorem invalidation_propagation_witness :
    (invalidateEntry (updateProductInvalidatesTags sampleProduct) listEntrySample).stale
      = true
    ∧ 0 < (invalidateEntry (updateProductInvalidatesTags sampleProduct)
        listEntrySample).inflight
    ∧ invalidateEntry (updateProductInvalidatesTags sampleProduct) idTwoEntrySample
      = idTwoEntrySample :=
  ⟨((invalidation_propagation (updateProductInvalidatesTags sampleProduct)
      listEntrySample).2.1 (by decide)).1,
   ((invalidation_propagation (updateProductInvalidatesTags sampleProduct)
      listEntrySample).2.1 (by decide)).2.2.2.2 (by decide),
   (invalidation_propagation (updateProductInvalidatesTags sampleProduct)
      idTwoEntrySample).2.2 (by decide)⟩

/-- C3: a failed mutation invalidates no tags: the cache store,
including every entry's status, data, error and provided tags, is left
exactly as before the mutation, and the failure is recorded only in the
mutation's own result. -/
theorem failed_mutation_no_invalidation
    (invTags : Option Payload → Option NormalizedError → List Tag)
    (err : NormalizedError) (s : CacheState) :
    (completeMutation invTags (Except.error err) s).1 = s
    ∧ (∀ k : CacheKey,
        ((completeMutation invTags (Except.error err) s).1).entry k = s.entry k)
    ∧ (completeMutation invTags (Except.error err) s).2
      = ⟨false, none, some err⟩ :=
  ⟨rfl, fun _ => rfl, rfl⟩

/-- C4: at-most-one in-flight request per cache key: in every state the
engine can reach, each key has at most one request in flight; and two
concurrent subscriptions to the same fresh key issue exactly one
network request, after whose resolution both subscribers observe the
same value through the single shared entry. -/
theorem query_deduplication (evs : List EngineEvent) (k : CacheKey)
    (p : Payload) (tags : List Tag) :
    inflightOf (runEngine evs) k ≤ 1
    ∧ (runEngine [EngineEvent.subscribe k, EngineEvent.subscribe k,
        EngineEvent.resolveOk k p tags]).issuedCount k = 1
    ∧ subscribersOf (runEngine [EngineEvent.subscribe k, EngineEvent.subscribe k,
        EngineEvent.resolveOk k p tags]) k = 2
    ∧ observedData (runEngine [EngineEvent.subscribe k, EngineEvent.subscribe k,
        EngineEvent.resolveOk k p tags]) k = some p := by
  refine ⟨foldl_inflightBounded evs emptyCacheState emptyCacheState_inflightBounded k,
    ?_, ?_, ?_⟩ <;>
    simp [runEngine, engineStep, subscribeStep, useQueryStep, resolveOkStep,
      setEntry, logIssue, emptyCacheState, freshPendingEntry, inflightOf,
      subscribersOf, observedData]

/-- C5: skip semantics: a useQuery render with skip set leaves the
whole store untouched and issues no request; when skip becomes false on
a key with no cache entry, exactly one fresh fetch is issued under the
key carrying the then-current argument, and no other key is touched. -/
theorem skip_semantics (s : CacheState) (k : CacheKey)
    (hnone : s.entry k = none) :
    (∀ s' : CacheState, useQueryStep k true s' = s')
    ∧ (useQueryStep k false s).issuedCount k = s.issuedCount k + 1
    ∧ (useQueryStep k false s).entry k = some freshPendingEntry
    ∧ (∀ k' : CacheKey, k' ≠ k →
        (useQueryStep k false s).issuedCount k' = s.issuedCount k'
        ∧ (useQueryStep k false s).entry k' = s.entry k') := by
  refine ⟨fun s' => rfl, ?_, ?_, ?_⟩
  · simp [useQueryStep, subscribeStep, hnone, logIssue, setEntry]
  · simp [useQueryStep, subscribeStep, hnone, logIssue, setEntry]
  · intro k' hk
    constructor <;>
      simp [useQueryStep, subscribeStep, hnone, logIssue, setEntry, hk]

/-- Witness: with no cached entry, a skipped render of the search query
for the argument shoes leaves the empty store untouched, and the render
with skip cleared issues exactly one request under that key. -/
theorem skip_semantics_witness :
    useQueryStep ("searchProducts", "shoes") true emptyCacheState = emptyCacheState
    ∧ (useQueryStep ("searchProducts", "shoes") false emptyCacheState).issuedCount
        ("searchProducts", "shoes") = 1 := by
  refine ⟨(skip_semantics emptyCacheState ("searchProducts", "shoes") rfl).1
    emptyCacheState, ?_⟩
  have h := (skip_semantics emptyCacheState ("searchProducts", "shoes") rfl).2.1
  simpa [emptyCacheState] using h

/-- C9: searchProducts provides the "SEARCH" sentinel, never the "LIST"
sentinel, so the completed addProduct mutation, which invalidates only
the "LIST" sentinel, has a provided set disjoint from its invalidated
set and leaves every searchProducts cache entry unchanged. -/
theorem add_mutation_leaves_search_cache (r : Option (List Product)) (e : CacheEntry)
    (he : e.providedTags = searchProductsProvidesTags r) :
    productTag (TagId.str "SEARCH") ∈ searchProductsProvidesTags r
    ∧ productTag (TagId.str "LIST") ∉ searchProductsProvidesTags r
    ∧ tagsIntersect (searchProductsProvidesTags r) addProductInvalidatesTags = false
    ∧ invalidateEntry addProductInvalidatesTags e = e := by
  have hdisj : tagsIntersect (searchProductsProvidesTags r)
      addProductInvalidatesTags = false := by
    rw [tagsIntersect_eq_false_iff]
    intro x hx y hy
    have hy' : y = productTag (TagId.str "LIST") := by
      simpa [addProductInvalidatesTags] using hy
    subst hy'
    cases r with
    | none =>
        have hx' : x = productTag (TagId.str "SEARCH") := by
          simpa [searchProductsProvidesTags] using hx
        subst hx'
        decide
    | some ps =>
        simp only [searchProductsProvidesTags, List.mem_append, List.mem_map,
          List.mem_singleton] at hx
        rcases hx with ⟨q, _, rfl⟩ | rfl
        · simp [productTag]
        · decide
  refine ⟨?_, ?_, hdisj, by simp [invalidateEntry, he, hdisj]⟩
  · cases r <;> simp [searchProductsProvidesTags]
  · intro hmem
    cases r with
    | none =>
        have hx' : productTag (TagId.str "LIST") = productTag (TagId.str "SEARCH") := by
          simpa [searchProductsProvidesTags] using hmem
        exact absurd hx' (by decide)
    | some ps =>
        simp only [searchProductsProvidesTags, List.mem_append, List.mem_map,
          List.mem_singleton] at hmem
        rcases hmem with ⟨q, _, hq⟩ | hq
        · simp [productTag] at hq
        · exact absurd hq (by decide)

/-- Cache entry of a fulfilled searchProducts query over the first
sample product, with one active subscriber and nothing in flight. -/
def searchEntrySample : CacheEntry :=
  ⟨QueryStatus.fulfilled, some (Payload.products [sampleProduct]), none,
   searchProductsProvidesTags (some [sampleProduct]), 1, 0, false⟩

/-- Witness: the addProduct invalidation leaves a concrete cached
search entry unchanged. -/
theorem add_mutation_leaves_search_cache_witness :
    invalidateEntry addProductInvalidatesTags searchEntrySample = searchEntrySample :=
  (add_mutation_leaves_search_cache (some [sampleProduct]) searchEntrySample
    rfl).2.2.2

/-- C10: the classifyProducts mutation declares no invalidatesTags, its
computed invalidated set is empty for every result, error and argument,
and its completion with any outcome leaves the whole cache store, hence
every getProducts and findUncategorized entry, exactly unchanged. -/
theorem classify_mutation_no_cache_effect (res : Option Payload)
    (err : Option NormalizedError) (ids : List Int) (s : CacheState)
    (outcome : Except NormalizedError Payload) :
    classifyProductsInvalidatesTags res err ids = []
    ∧ (completeMutation (fun r e => classifyProductsInvalidatesTags r e ids)
        outcome s).1 = s := by
  refine ⟨rfl, ?_⟩
  cases outcome with
  | ok r =>
      simpa [completeMutation, classifyProductsInvalidatesTags] using invalidate_nil s
  | error e => rfl
